import Mathlib

/-!
Shallow embedding of the numeric core of the `distributions` repository:
the special-function kernel (`src/lib/mathUtils.js`) and the distribution
evaluators and range estimators (`src/lib/distributions.js`).

JavaScript numbers are modelled as exact rationals extended with the IEEE
special values `NaN`, `+Infinity` and `-Infinity` (type `JSNum`); rounding
and signed zero are abstracted away, while the special-value propagation
rules of ECMAScript arithmetic and comparison are modelled exactly.
Transcendental library calls (`Math.exp`, `Math.log`, `Math.sqrt`,
`Math.sin`, `Math.cos`, and fractional powers) are abstracted as fields of
a parameter structure `JSMath`, so every definition stays computable; the
few facts about those primitives that proofs need (e.g. `exp NaN = NaN`,
which is true of IEEE `Math.exp`) appear as explicit hypotheses.
-/

namespace Dist

/-- A JavaScript number: an exact rational, `NaN`, `+Infinity` or `-Infinity`. -/
inductive JSNum where
  | num (q : ℚ)
  | nan
  | inf
  | ninf
deriving DecidableEq

namespace JSNum

/-- JS addition (`+`) with IEEE special-value rules. -/
def jadd : JSNum → JSNum → JSNum
  | nan, _ => nan
  | _, nan => nan
  | inf, ninf => nan
  | ninf, inf => nan
  | inf, _ => inf
  | _, inf => inf
  | ninf, _ => ninf
  | _, ninf => ninf
  | num a, num b => num (a + b)

/-- JS unary negation. -/
def jneg : JSNum → JSNum
  | nan => nan
  | inf => ninf
  | ninf => inf
  | num a => num (-a)

/-- JS subtraction (`-`) with IEEE special-value rules. -/
def jsub : JSNum → JSNum → JSNum
  | nan, _ => nan
  | _, nan => nan
  | inf, inf => nan
  | ninf, ninf => nan
  | inf, _ => inf
  | ninf, _ => ninf
  | num _, inf => ninf
  | num _, ninf => inf
  | num a, num b => num (a - b)

/-- JS multiplication (`*`) with IEEE special-value rules. -/
def jmul : JSNum → JSNum → JSNum
  | nan, _ => nan
  | _, nan => nan
  | inf, inf => inf
  | inf, ninf => ninf
  | ninf, inf => ninf
  | ninf, ninf => inf
  | inf, num b => if b = 0 then nan else if 0 < b then inf else ninf
  | ninf, num b => if b = 0 then nan else if 0 < b then ninf else inf
  | num a, inf => if a = 0 then nan else if 0 < a then inf else ninf
  | num a, ninf => if a = 0 then nan else if 0 < a then ninf else inf
  | num a, num b => num (a * b)

/-- JS division (`/`) with IEEE special-value rules (signed zero abstracted:
division of a nonzero finite value by zero yields the infinity matching the
numerator's sign). -/
def jdiv : JSNum → JSNum → JSNum
  | nan, _ => nan
  | _, nan => nan
  | inf, inf => nan
  | inf, ninf => nan
  | ninf, inf => nan
  | ninf, ninf => nan
  | inf, num b => if 0 ≤ b then inf else ninf
  | ninf, num b => if 0 ≤ b then ninf else inf
  | num _, inf => num 0
  | num _, ninf => num 0
  | num a, num b =>
    if b = 0 then (if a = 0 then nan else if 0 < a then inf else ninf)
    else num (a / b)

/-- JS strict less-than (`<`); any comparison with `NaN` is false. -/
def jltb : JSNum → JSNum → Bool
  | nan, _ => false
  | _, nan => false
  | num a, num b => decide (a < b)
  | ninf, ninf => false
  | ninf, _ => true
  | _, ninf => false
  | inf, _ => false
  | _, inf => true

/-- JS less-or-equal (`<=`); any comparison with `NaN` is false. -/
def jleb : JSNum → JSNum → Bool
  | nan, _ => false
  | _, nan => false
  | num a, num b => decide (a ≤ b)
  | ninf, _ => true
  | _, ninf => false
  | _, inf => true
  | inf, _ => false

/-- JS strict greater-than (`>`). -/
def jgtb (a b : JSNum) : Bool := jltb b a

/-- JS greater-or-equal (`>=`). -/
def jgeb (a b : JSNum) : Bool := jleb b a

/-- JS strict equality (`===`) on numbers; `NaN === NaN` is false. -/
def jeqb : JSNum → JSNum → Bool
  | nan, _ => false
  | _, nan => false
  | num a, num b => decide (a = b)
  | inf, inf => true
  | ninf, ninf => true
  | _, _ => false

/-- JS `isFinite`. -/
def isFiniteB : JSNum → Bool
  | num _ => true
  | _ => false

/-- JS `Number.isInteger`. -/
def isIntB : JSNum → Bool
  | num q => decide (q.den = 1)
  | _ => false

/-- JS `Math.abs`. -/
def jabs : JSNum → JSNum
  | nan => nan
  | inf => inf
  | ninf => inf
  | num a => num |a|

/-- JS `Math.max` of two arguments (`NaN` wins). -/
def jmax : JSNum → JSNum → JSNum
  | nan, _ => nan
  | _, nan => nan
  | inf, _ => inf
  | _, inf => inf
  | ninf, b => b
  | a, ninf => a
  | num a, num b => num (max a b)

/-- JS `Math.min` of two arguments (`NaN` wins). -/
def jmin : JSNum → JSNum → JSNum
  | nan, _ => nan
  | _, nan => nan
  | ninf, _ => ninf
  | _, ninf => ninf
  | inf, b => b
  | a, inf => a
  | num a, num b => num (min a b)

/-- JS `Math.ceil`. -/
def jceil : JSNum → JSNum
  | nan => nan
  | inf => inf
  | ninf => ninf
  | num a => num (⌈a⌉ : ℤ)

/-- Whether a JS number is falsy (`0`, `-0` or `NaN`); used by the
`params.x || default` idiom of the range estimators. -/
def jfalsy : JSNum → Bool
  | num q => decide (q = 0)
  | nan => true
  | _ => false

end JSNum

open JSNum

/-- The exact rational value of the double constant `Math.PI`. -/
def piQ : ℚ := 884279719003555 / 281474976710656

/-- The exact rational value of the double constant `Math.SQRT2`. -/
def sqrt2Q : ℚ := 6369051672525773 / 4503599627370496

/-- The transcendental `Math` primitives, abstracted: any interpretation of
`exp`, `log`, `sqrt`, `sin`, `cos` and of `Math.pow` on a positive finite
base with a finite non-integer exponent (`powF`). -/
structure JSMath where
  exp : JSNum → JSNum
  log : JSNum → JSNum
  sqrt : JSNum → JSNum
  sin : JSNum → JSNum
  cos : JSNum → JSNum
  powF : ℚ → ℚ → JSNum

/-- ECMAScript `Math.pow`.  Integer exponents on finite bases are exact
rational powers; a finite non-integer exponent on a positive finite base
defers to the abstract primitive `M.powF`.  Special values follow the
ECMAScript specification (in particular `pow(x, NaN) = NaN` for every `x`,
and `pow(x, 0) = 1` even for `x = NaN`). -/
def jpow (M : JSMath) : JSNum → JSNum → JSNum
  | _, nan => nan
  | x, num e =>
    if e = 0 then num 1
    else
      match x with
      | nan => nan
      | inf => if 0 < e then inf else num 0
      | ninf =>
        if 0 < e then (if e.den = 1 ∧ e.num % 2 = 1 then ninf else inf)
        else num 0
      | num b =>
        if e.den = 1 then
          if b = 0 then (if 0 < e then num 0 else inf)
          else num (b ^ e.num)
        else
          if b < 0 then nan
          else if b = 0 then (if 0 < e then num 0 else inf)
          else M.powF b e
  | nan, inf => nan
  | inf, inf => inf
  | ninf, inf => inf
  | num b, inf => if |b| = 1 then nan else if 1 < |b| then inf else num 0
  | nan, ninf => nan
  | inf, ninf => num 0
  | ninf, ninf => num 0
  | num b, ninf => if |b| = 1 then nan else if 1 < |b| then num 0 else inf

end Dist

namespace Dist

open JSNum

/-- The nine Lanczos coefficients `c[0..8]` from the source, read as exact
decimal rationals. -/
def lanczosC : Nat → ℚ
  | 0 => 0.99999999999980993
  | 1 => 676.5203681218851
  | 2 => -1259.1392167224028
  | 3 => 771.32342877765313
  | 4 => -176.61502916214059
  | 5 => 12.507343278686905
  | 6 => -0.13857109526572012
  | 7 => 9.9843695780195716e-6
  | _ => 1.5056327351493116e-7

/-- The Lanczos branch of the source's `gamma` (g = 7, nine coefficients),
taken when `z < 0.5` fails: decrement `z`, accumulate
`x = c₀ + Σ_{i=1}^{8} cᵢ/(z+i)`, set `t = z + 7 + 0.5`, and return
`√(2π) · t^(z+0.5) · e^(−t) · x`. -/
def gammaLanczos (M : JSMath) (z0 : JSNum) : JSNum :=
  let z := jsub z0 (num 1)
  let x := (List.range 8).foldl
    (fun acc i => jadd acc (jdiv (num (lanczosC (i + 1))) (jadd z (num ((i : ℚ) + 1)))))
    (num (lanczosC 0))
  let t := jadd (jadd z (num 7)) (num (1/2))
  jmul (jmul (jmul (M.sqrt (num (2 * piQ))) (jpow M t (jadd z (num (1/2)))))
    (M.exp (jneg t))) x

/-- The source's recursive `gamma`, with an explicit fuel so the recursion is
structural; `gamma` itself runs it with fuel 2, which the termination theorem
shows is always enough (the reflection branch recurses at most once). -/
def gammaFuel (M : JSMath) : Nat → JSNum → JSNum
  | 0, _ => nan
  | fuel + 1, z =>
    if jltb z (num (1/2)) then
      jdiv (num piQ) (jmul (M.sin (jmul (num piQ) z)) (gammaFuel M fuel (jsub (num 1) z)))
    else gammaLanczos M z

/-- `gamma(z)`: Lanczos approximation with reflection for `z < 0.5`. -/
def gamma (M : JSMath) (z : JSNum) : JSNum := gammaFuel M 2 z

/-- `logGamma(z)`: `NaN` for `z ≤ 0`, Stirling for `z > 50`, otherwise
`log(gamma(z))` guarded by a finite-and-positive check. -/
def logGamma (M : JSMath) (z : JSNum) : JSNum :=
  if jleb z (num 0) then nan
  else if jgtb z (num 50) then
    jadd (jadd (jsub (jmul (jsub z (num (1/2))) (M.log z)) z)
      (jmul (num (1/2)) (M.log (num (2 * piQ))))) (jdiv (num 1) (jmul (num 12) z))
  else
    let g := gamma M z
    if isFiniteB g && jgtb g (num 0) then M.log g else nan

/-- `beta(a, b)`: `NaN` outside `a, b > 0`; log-space via `logGamma` when
`a > 50` or `b > 50` or `a + b > 50`; otherwise the direct Gamma ratio with a
`NaN` fallback when the result is not finite. -/
def beta (M : JSMath) (a b : JSNum) : JSNum :=
  if jleb a (num 0) || jleb b (num 0) then nan
  else if jgtb a (num 50) || jgtb b (num 50) || jgtb (jadd a b) (num 50) then
    M.exp (jsub (jadd (logGamma M a) (logGamma M b)) (logGamma M (jadd a b)))
  else
    let r := jdiv (jmul (gamma M a) (gamma M b)) (gamma M (jadd a b))
    if isFiniteB r then r else nan

/-- `safeLog(x)`: `log x` for `x > 0`, else `-Infinity`. -/
def safeLog (M : JSMath) (x : JSNum) : JSNum :=
  if jgtb x (num 0) then M.log x else ninf

/-- The JS test `exponent % 1 !== 0`: true for finite non-integers and for
`NaN`/`±Infinity` (whose remainder is `NaN`). -/
def fracNonzeroB : JSNum → Bool
  | num q => decide (q.den ≠ 1)
  | _ => true

/-- `safePow(base, exponent)`: `1` for `0^0`, `NaN` for a negative base with a
non-integer exponent, otherwise `Math.pow`. -/
def safePow (M : JSMath) (base expo : JSNum) : JSNum :=
  if jeqb base (num 0) && jeqb expo (num 0) then num 1
  else if jltb base (num 0) && fracNonzeroB expo then nan
  else jpow M base expo

/-- `logFactorial(n)`: `-Infinity` for `n < 0`, `0` for `n ∈ {0, 1}`, else
`logGamma(n+1)`. -/
def logFactorial (M : JSMath) (n : JSNum) : JSNum :=
  if jltb n (num 0) then ninf
  else if jeqb n (num 0) || jeqb n (num 1) then num 0
  else logGamma M (jadd n (num 1))

/-- `besselI0(z)`: piecewise polynomial / scaled asymptotic approximation of
the modified Bessel function I₀, switching at `|z| = 3.75`. -/
def besselI0 (M : JSMath) (z : JSNum) : JSNum :=
  let absZ := jabs z
  if jltb absZ (num (15/4)) then
    let t := jpow M (jdiv absZ (num (15/4))) (num 2)
    jadd (num 1) (jmul t (jadd (num 3.5156229) (jmul t (jadd (num 3.0899424)
      (jmul t (jadd (num 1.2067492) (jmul t (jadd (num 0.2659732)
      (jmul t (jadd (num 0.0360768) (jmul t (num 0.0045813))))))))))))
  else
    let t := jdiv (num (15/4)) absZ
    jmul (jdiv (M.exp absZ) (M.sqrt absZ))
      (jadd (num 0.39894228) (jmul t (jadd (num 0.01328592)
      (jmul t (jadd (num 0.00225319) (jmul t (jadd (num (-0.00157565))
      (jmul t (jadd (num 0.00916281) (jmul t (jadd (num (-0.02057706))
      (jmul t (jadd (num 0.02635537) (jmul t (jadd (num (-0.01647633))
      (jmul t (num 0.00392377)))))))))))))))))

/-- `erfc(u)`: Abramowitz–Stegun 7.1.26 rational approximation, with the
sign reflection `erfc(u) = 1 + erf(−u)` for `u < 0`. -/
def erfc (M : JSMath) (u : JSNum) : JSNum :=
  let sign : JSNum := if jltb u (num 0) then num (-1) else num 1
  let z := jabs u
  let t := jdiv (num 1) (jadd (num 1) (jmul (num 0.3275911) z))
  let poly := jadd (jmul (jadd (jmul (jadd (jmul (jadd (jmul (num 1.061405429) t)
    (num (-1.453152027))) t) (num 1.421413741)) t) (num (-0.284496736))) t)
    (num 0.254829592)
  let erfZ := jsub (num 1) (jmul poly (M.exp (jmul (jneg z) z)))
  if jgeb sign (num 0) then jsub (num 1) erfZ else jadd (num 1) erfZ

/-- `normalCDF(z) = 0.5 · erfc(−z / Math.SQRT2)`. -/
def normalCDF (M : JSMath) (z : JSNum) : JSNum :=
  jmul (num (1/2)) (erfc M (jdiv (jneg z) (num sqrt2Q)))

end Dist

namespace Dist

open JSNum

/-- Iteration count of the JS loop `for (let i = 0; i < k; i++)`: `⌈k⌉`
iterations for a finite bound (the guards in front of every such loop ensure
the bound is a nonnegative integer); the count for the remaining,
guard-rejected shapes is immaterial and taken as 0. -/
def loopCount : JSNum → Nat
  | num q => Int.toNat ⌈q⌉
  | _ => 0

/-- `normal.pdf(x, mu, sigma)`. -/
def normalPdf (M : JSMath) (x mu sigma : JSNum) : JSNum :=
  if jleb sigma (num 0) then num 0
  else
    let z := jdiv (jsub x mu) sigma
    jmul (jdiv (num 1) (jmul sigma (M.sqrt (num (2 * piQ)))))
      (M.exp (jmul (jmul (num (-1/2)) z) z))

/-- `beta.pdf(x, alpha, betaParam)`, with its explicit boundary table at
`x ∈ {0, 1}`. -/
def betaPdf (M : JSMath) (x alpha betaP : JSNum) : JSNum :=
  if jltb x (num 0) || jgtb x (num 1) || jleb alpha (num 0) || jleb betaP (num 0) then num 0
  else if jeqb x (num 0) || jeqb x (num 1) then
    if (jgtb alpha (num 1) && jeqb x (num 0)) || (jgtb betaP (num 1) && jeqb x (num 1)) then
      num 0
    else if (jltb alpha (num 1) && jeqb x (num 0)) || (jltb betaP (num 1) && jeqb x (num 1)) then
      inf
    else if (jeqb alpha (num 1) && jeqb x (num 0)) || (jeqb betaP (num 1) && jeqb x (num 1)) then
      let betaValue := beta M alpha betaP
      if isFiniteB betaValue && jgtb betaValue (num 0) then jdiv (num 1) betaValue else num 0
    else num 0
  else
    let betaValue := beta M alpha betaP
    if !isFiniteB betaValue || jleb betaValue (num 0) then num 0
    else
      let term1 := safePow M x (jsub alpha (num 1))
      let term2 := safePow M (jsub (num 1) x) (jsub betaP (num 1))
      if !isFiniteB term1 || !isFiniteB term2 then num 0
      else
        let result := jdiv (jmul term1 term2) betaValue
        if isFiniteB result then result else num 0

/-- `gamma.pdf(x, alpha, betaParam)`. -/
def gammaPdf (M : JSMath) (x alpha betaP : JSNum) : JSNum :=
  if jltb x (num 0) || jleb alpha (num 0) || jleb betaP (num 0) then num 0
  else
    let gammaValue := gamma M alpha
    jmul (jmul (jdiv (safePow M betaP alpha) gammaValue) (safePow M x (jsub alpha (num 1))))
      (M.exp (jmul (jneg betaP) x))

/-- `exponential.pdf(x, lambda)`. -/
def exponentialPdf (M : JSMath) (x lambda : JSNum) : JSNum :=
  if jltb x (num 0) || jleb lambda (num 0) then num 0
  else jmul lambda (M.exp (jmul (jneg lambda) x))

/-- `uniform.pdf(x, a, b)`. -/
def uniformPdf (x a b : JSNum) : JSNum :=
  if jleb b a then num 0
  else if jltb x a || jgtb x b then num 0
  else jdiv (num 1) (jsub b a)

/-- `lognormal.pdf(x, mu, sigma)`. -/
def lognormalPdf (M : JSMath) (x mu sigma : JSNum) : JSNum :=
  if jleb x (num 0) || jleb sigma (num 0) then num 0
  else
    let logX := safeLog M x
    if !isFiniteB logX then num 0
    else
      let z := jdiv (jsub logX mu) sigma
      jmul (jdiv (num 1) (jmul (jmul x sigma) (M.sqrt (num (2 * piQ)))))
        (M.exp (jmul (jmul (num (-1/2)) z) z))

/-- `chi2.pdf(x, k)`. -/
def chi2Pdf (M : JSMath) (x k : JSNum) : JSNum :=
  if jltb x (num 0) || jleb k (num 0) then num 0
  else if jeqb x (num 0) && jltb k (num 2) then inf
  else if jeqb x (num 0) && jeqb k (num 2) then num (1/2)
  else if jeqb x (num 0) then num 0
  else
    let gammaValue := gamma M (jdiv k (num 2))
    jmul (jmul (jdiv (num 1) (jmul (safePow M (num 2) (jdiv k (num 2))) gammaValue))
      (safePow M x (jsub (jdiv k (num 2)) (num 1)))) (M.exp (jdiv (jneg x) (num 2)))

/-- `student.pdf(x, nu)`. -/
def studentPdf (M : JSMath) (x nu : JSNum) : JSNum :=
  if jleb nu (num 0) then num 0
  else
    let gammaRatio := jdiv (gamma M (jdiv (jadd nu (num 1)) (num 2))) (gamma M (jdiv nu (num 2)))
    let denominator := jmul (M.sqrt (jmul nu (num piQ)))
      (safePow M (jadd (num 1) (jdiv (jmul x x) nu)) (jdiv (jadd nu (num 1)) (num 2)))
    jdiv gammaRatio denominator

/-- `binomial.pdf(k, n, p)`; the binomial coefficient is the iterative
multiply-divide loop of the source. -/
def binomialPdf (M : JSMath) (k n p : JSNum) : JSNum :=
  if !isIntB k || jltb k (num 0) || jgtb k n || jltb n (num 0)
      || jltb p (num 0) || jgtb p (num 1) then num 0
  else if jeqb p (num 0) then (if jeqb k (num 0) then num 1 else num 0)
  else if jeqb p (num 1) then (if jeqb k n then num 1 else num 0)
  else
    let coeff := (List.range (loopCount k)).foldl
      (fun c i => jdiv (jmul c (jsub n (num (i : ℚ)))) (num ((i : ℚ) + 1))) (num 1)
    jmul (jmul coeff (jpow M p k)) (jpow M (jsub (num 1) p) (jsub n k))

/-- `poisson.pdf(k, lambda)`: log-space formula
`exp(k·ln λ − λ − logFactorial(k))`. -/
def poissonPdf (M : JSMath) (k lambda : JSNum) : JSNum :=
  if !isIntB k || jltb k (num 0) || jleb lambda (num 0) then num 0
  else M.exp (jsub (jsub (jmul k (M.log lambda)) lambda) (logFactorial M k))

/-- `geometric.pdf(k, p)`. -/
def geometricPdf (M : JSMath) (k p : JSNum) : JSNum :=
  if !isIntB k || jltb k (num 1) || jleb p (num 0) || jgtb p (num 1) then num 0
  else jmul (jpow M (jsub (num 1) p) (jsub k (num 1))) p

/-- `negativeBinomial.pdf(k, r, p)`. -/
def negativeBinomialPdf (M : JSMath) (k r p : JSNum) : JSNum :=
  if !isIntB k || jltb k r || jltb r (num 1) || jleb p (num 0) || jgtb p (num 1) then num 0
  else
    let coeff := (List.range (loopCount (jsub r (num 1)))).foldl
      (fun c i => jdiv (jmul c (jsub (jsub k (num 1)) (num (i : ℚ)))) (num ((i : ℚ) + 1)))
      (num 1)
    jmul (jmul coeff (jpow M p r)) (jpow M (jsub (num 1) p) (jsub k r))

/-- `bernoulli.pdf(x, p)`. -/
def bernoulliPdf (x p : JSNum) : JSNum :=
  if !(jeqb x (num 0)) && !(jeqb x (num 1)) then num 0
  else if jltb p (num 0) || jgtb p (num 1) then num 0
  else if jeqb x (num 1) then p else jsub (num 1) p

/-- `discreteUniform.pdf(x, lower, upper)`. -/
def discreteUniformPdf (x lower upper : JSNum) : JSNum :=
  if !isIntB x || jltb x lower || jgtb x upper || jgtb lower upper then num 0
  else jdiv (num 1) (jadd (jsub upper lower) (num 1))

/-- `hypergeometric.pdf(x, N, K, n)`: log-factorial differences, then one
exponentiation. -/
def hypergeometricPdf (M : JSMath) (x N K n : JSNum) : JSNum :=
  if !isIntB x || jltb x (num 0) || jgtb x n || jgtb x K
      || jgtb (jsub n x) (jsub N K) then num 0
  else if jltb N K || jltb N n || jltb K (num 0) || jltb n (num 0) then num 0
  else
    let logCombK := jsub (jsub (logFactorial M K) (logFactorial M x))
      (logFactorial M (jsub K x))
    let logCombNK := jsub (jsub (logFactorial M (jsub N K)) (logFactorial M (jsub n x)))
      (logFactorial M (jadd (jsub (jsub N K) n) x))
    let logCombN := jsub (jsub (logFactorial M N) (logFactorial M n))
      (logFactorial M (jsub N n))
    M.exp (jsub (jadd logCombK logCombNK) logCombN)

/-- `betaBinomial.pdf(x, n, alpha, beta_param)`. -/
def betaBinomialPdf (M : JSMath) (x n alpha betaP : JSNum) : JSNum :=
  if !isIntB x || jltb x (num 0) || jgtb x n || jleb alpha (num 0) || jleb betaP (num 0) then
    num 0
  else
    let logBinomCoeff := jsub (jsub (logFactorial M n) (logFactorial M x))
      (logFactorial M (jsub n x))
    let logBetaRatio := jadd
      (jsub (jadd (logGamma M (jadd x alpha)) (logGamma M (jadd (jsub n x) betaP)))
        (logGamma M (jadd (jadd n alpha) betaP)))
      (jsub (jsub (logGamma M (jadd alpha betaP)) (logGamma M alpha)) (logGamma M betaP))
    M.exp (jadd logBinomCoeff logBetaRatio)

/-- `discreteWeibull.pdf(x, q, beta_param)`. -/
def discreteWeibullPdf (M : JSMath) (x q betaP : JSNum) : JSNum :=
  if !isIntB x || jltb x (num 0) || jleb q (num 0) || jgeb q (num 1)
      || jleb betaP (num 0) then num 0
  else
    let xBeta := jpow M x betaP
    let x1Beta := jpow M (jadd x (num 1)) betaP
    if jgtb xBeta (num 700) || jgtb x1Beta (num 700) then num 0
    else
      let qx := jpow M q xBeta
      let qx1 := jpow M q x1Beta
      let result := jsub qx qx1
      if isFiniteB result && jgeb result (num 0) then result else num 0

/-- `cauchy.pdf(x, x0, gamma)`. -/
def cauchyPdf (x x0 gammaP : JSNum) : JSNum :=
  if jleb gammaP (num 0) then num 0
  else
    let z := jdiv (jsub x x0) gammaP
    jdiv (num 1) (jmul (jmul (num piQ) gammaP) (jadd (num 1) (jmul z z)))

/-- `laplace.pdf(x, mu, b)`. -/
def laplacePdf (M : JSMath) (x mu b : JSNum) : JSNum :=
  if jleb b (num 0) then num 0
  else jmul (jdiv (num 1) (jmul (num 2) b)) (M.exp (jdiv (jneg (jabs (jsub x mu))) b))

/-- `logistic.pdf(x, mu, s)`. -/
def logisticPdf (M : JSMath) (x mu s : JSNum) : JSNum :=
  if jleb s (num 0) then num 0
  else
    let z := jdiv (jneg (jsub x mu)) s
    let expZ := M.exp z
    jdiv expZ (jmul s (jpow M (jadd (num 1) expZ) (num 2)))

/-- `gumbel.pdf(x, mu, beta)`. -/
def gumbelPdf (M : JSMath) (x mu betaP : JSNum) : JSNum :=
  if jleb betaP (num 0) then num 0
  else
    let z := jdiv (jsub x mu) betaP
    jmul (jdiv (num 1) betaP) (M.exp (jsub (jneg z) (M.exp (jneg z))))

/-- `weibull.pdf(x, alpha, beta)`. -/
def weibullPdf (M : JSMath) (x alpha betaP : JSNum) : JSNum :=
  if jleb alpha (num 0) || jleb betaP (num 0) || jltb x (num 0) then num 0
  else
    let xb := jdiv x betaP
    jmul (jmul (jdiv alpha betaP) (jpow M xb (jsub alpha (num 1))))
      (M.exp (jneg (jpow M xb alpha)))

/-- `pareto.pdf(x, alpha, m)`. -/
def paretoPdf (M : JSMath) (x alpha m : JSNum) : JSNum :=
  if jleb alpha (num 0) || jleb m (num 0) || jltb x m then num 0
  else jdiv (jmul alpha (jpow M m alpha)) (jpow M x (jadd alpha (num 1)))

/-- `halfNormal.pdf(x, sigma)`. -/
def halfNormalPdf (M : JSMath) (x sigma : JSNum) : JSNum :=
  if jleb sigma (num 0) || jltb x (num 0) then num 0
  else jmul (M.sqrt (jdiv (num 2) (jmul (jmul (num piQ) sigma) sigma)))
    (M.exp (jdiv (jneg (jmul x x)) (jmul (jmul (num 2) sigma) sigma)))

/-- `halfCauchy.pdf(x, beta)`. -/
def halfCauchyPdf (x betaP : JSNum) : JSNum :=
  if jleb betaP (num 0) || jltb x (num 0) then num 0
  else
    let z := jdiv x betaP
    jdiv (num 2) (jmul (jmul (num piQ) betaP) (jadd (num 1) (jmul z z)))

/-- `inverseGamma.pdf(x, alpha, beta)`. -/
def inverseGammaPdf (M : JSMath) (x alpha betaP : JSNum) : JSNum :=
  if jleb alpha (num 0) || jleb betaP (num 0) || jleb x (num 0) then num 0
  else jmul (jmul (jdiv (jpow M betaP alpha) (gamma M alpha))
    (jpow M x (jsub (jneg alpha) (num 1)))) (M.exp (jdiv (jneg betaP) x))

/-- `triangular.pdf(x, lower, c, upper)`. -/
def triangularPdf (x lower c upper : JSNum) : JSNum :=
  if jgeb lower c || jgeb c upper || jltb x lower || jgtb x upper then num 0
  else if jltb x c then
    jdiv (jmul (num 2) (jsub x lower)) (jmul (jsub upper lower) (jsub c lower))
  else if jeqb x c then jdiv (num 2) (jsub upper lower)
  else jdiv (jmul (num 2) (jsub upper x)) (jmul (jsub upper lower) (jsub upper c))

/-- `kumaraswamy.pdf(x, a, b)`. -/
def kumaraswamyPdf (M : JSMath) (x a b : JSNum) : JSNum :=
  if jleb a (num 0) || jleb b (num 0) || jltb x (num 0) || jgtb x (num 1) then num 0
  else jmul (jmul (jmul a b) (jpow M x (jsub a (num 1))))
    (jpow M (jsub (num 1) (jpow M x a)) (jsub b (num 1)))

/-- `asymmetricLaplace.pdf(x, mu, b, kappa)`. -/
def asymmetricLaplacePdf (M : JSMath) (x mu b kappa : JSNum) : JSNum :=
  if jleb b (num 0) || jleb kappa (num 0) then num 0
  else
    let sign : JSNum := if jgeb x mu then num 1 else num (-1)
    let kappaSign := if jgtb sign (num 0) then kappa else jdiv (num 1) kappa
    let normalization := jdiv kappa (jmul b (jadd (num 1) (jmul kappa kappa)))
    jmul normalization (M.exp (jdiv (jmul (jneg (jabs (jsub x mu))) kappaSign) b))

/-- `skewNormal.pdf(x, mu, sigma, alpha)`. -/
def skewNormalPdf (M : JSMath) (x mu sigma alpha : JSNum) : JSNum :=
  if jleb sigma (num 0) then num 0
  else
    let z := jdiv (jsub x mu) sigma
    let phi := jmul (jdiv (num 1) (M.sqrt (num (2 * piQ))))
      (M.exp (jmul (jmul (num (-1/2)) z) z))
    let phiT := normalCDF M (jmul alpha z)
    jmul (jmul (jdiv (num 2) sigma) phi) phiT

/-- `halfStudentT.pdf(x, nu, sigma)`. -/
def halfStudentTPdf (M : JSMath) (x nu sigma : JSNum) : JSNum :=
  if jleb nu (num 0) || jleb sigma (num 0) || jltb x (num 0) then num 0
  else
    let t := jdiv x sigma
    let gammaRatio := jdiv (gamma M (jdiv (jadd nu (num 1)) (num 2))) (gamma M (jdiv nu (num 2)))
    jmul (jdiv (jmul (num 2) gammaRatio) (jmul (M.sqrt (jmul nu (num piQ))) sigma))
      (jpow M (jadd (num 1) (jdiv (jmul t t) nu)) (jdiv (jneg (jadd nu (num 1))) (num 2)))

/-- `logitNormal.pdf(x, mu, tau)`. -/
def logitNormalPdf (M : JSMath) (x mu tau : JSNum) : JSNum :=
  if jleb tau (num 0) || jleb x (num 0) || jgeb x (num 1) then num 0
  else
    let logitX := M.log (jdiv x (jsub (num 1) x))
    let normFactor := jmul (jdiv (num 1) (jmul x (jsub (num 1) x)))
      (M.sqrt (jdiv tau (num (2 * piQ))))
    jmul normFactor (M.exp (jmul (jdiv (jneg tau) (num 2))
      (jpow M (jsub logitX mu) (num 2))))

/-- `wald.pdf(x, mu, lam)`. -/
def waldPdf (M : JSMath) (x mu lam : JSNum) : JSNum :=
  if jleb mu (num 0) || jleb lam (num 0) || jleb x (num 0) then num 0
  else
    let sqrtTerm := M.sqrt (jdiv lam (jmul (jmul (jmul (num (2 * piQ)) x) x) x))
    let expTerm := M.exp (jdiv (jmul (jneg lam) (jpow M (jsub x mu) (num 2)))
      (jmul (jmul (jmul (num 2) mu) mu) x))
    jmul sqrtTerm expTerm

/-- `moyal.pdf(x, mu, sigma)`. -/
def moyalPdf (M : JSMath) (x mu sigma : JSNum) : JSNum :=
  if jleb sigma (num 0) then num 0
  else
    let z := jdiv (jsub x mu) sigma
    jmul (jdiv (num 1) (jmul (M.sqrt (num (2 * piQ))) sigma))
      (M.exp (jmul (num (-1/2)) (jadd z (M.exp (jneg z)))))

/-- `exGaussian.pdf(x, mu, sigma, lam)`. -/
def exGaussianPdf (M : JSMath) (x mu sigma lam : JSNum) : JSNum :=
  if jleb sigma (num 0) || jleb lam (num 0) then num 0
  else
    let expPart := jmul (jdiv lam (num 2)) (M.exp (jmul (jdiv lam (num 2))
      (jsub (jadd (jmul (num 2) mu) (jmul (jmul lam sigma) sigma)) (jmul (num 2) x))))
    let u := jdiv (jsub (jadd mu (jmul (jmul lam sigma) sigma)) x)
      (jmul (M.sqrt (num 2)) sigma)
    jmul expPart (erfc M u)

/-- `vonMises.pdf(x, mu, kappa)`. -/
def vonMisesPdf (M : JSMath) (x mu kappa : JSNum) : JSNum :=
  if jleb kappa (num 0) || jltb x (num (-piQ)) || jgtb x (num piQ) then num 0
  else jdiv (M.exp (jmul kappa (M.cos (jsub x mu))))
    (jmul (num (2 * piQ)) (besselI0 M kappa))

/-- `rice.pdf(x, nu, sigma)`. -/
def ricePdf (M : JSMath) (x nu sigma : JSNum) : JSNum :=
  if jleb sigma (num 0) || jltb nu (num 0) || jltb x (num 0) then num 0
  else
    let sigma2 := jmul sigma sigma
    let z := jdiv (jmul x nu) sigma2
    jmul (jmul (jdiv x sigma2) (M.exp (jdiv (jneg (jadd (jmul x x) (jmul nu nu)))
      (jmul (num 2) sigma2)))) (besselI0 M z)

/-- `truncatedNormal.pdf(x, mu, sigma, lower, upper)`. -/
def truncatedNormalPdf (M : JSMath) (x mu sigma lower upper : JSNum) : JSNum :=
  if jleb sigma (num 0) || jltb x lower || jgtb x upper || jgeb lower upper then num 0
  else
    let z := jdiv (jsub x mu) sigma
    let phi := jmul (jdiv (num 1) (M.sqrt (num (2 * piQ))))
      (M.exp (jmul (jmul (num (-1/2)) z) z))
    let alpha := jdiv (jsub lower mu) sigma
    let betaV := jdiv (jsub upper mu) sigma
    let bigZ := jsub (normalCDF M betaV) (normalCDF M alpha)
    jdiv phi (jmul sigma bigZ)

end Dist

namespace Dist

open JSNum

/-- The `params.x || default` idiom of every range estimator: a missing key
(`none`) and a falsy supplied value (`0` or `NaN`) are both replaced by the
default. -/
def orDefault (p : Option JSNum) (d : JSNum) : JSNum :=
  match p with
  | none => d
  | some v => if jfalsy v then d else v

/-- The width `max − min` of a range estimate. -/
def rangeWidth (r : JSNum × JSNum) : JSNum := jsub r.2 r.1

/-- `normal.rangeCalculator`: `{mu − 4σ, mu + 4σ}` with defaults `mu = 0`,
`sigma = 1`. -/
def normalRange (mu sigma : Option JSNum) : JSNum × JSNum :=
  let m := orDefault mu (num 0)
  let s := orDefault sigma (num 1)
  (jsub m (jmul (num 4) s), jadd m (jmul (num 4) s))

/-- `beta.rangeCalculator`: always `{0, 1}`. -/
def betaRange : JSNum × JSNum := (num 0, num 1)

/-- `gamma.rangeCalculator`. -/
def gammaRange (M : JSMath) (alpha betaP : Option JSNum) : JSNum × JSNum :=
  let a := orDefault alpha (num 1)
  let b := orDefault betaP (num 1)
  (num 0, jmax (num 5) (jdiv (jadd a (jmul (num 3) (M.sqrt a))) b))

/-- `exponential.rangeCalculator`: `{0, 5/λ}` with default `λ = 1`. -/
def exponentialRange (lambda : Option JSNum) : JSNum × JSNum :=
  let l := orDefault lambda (num 1)
  (num 0, jdiv (num 5) l)

/-- `uniform.rangeCalculator`. -/
def uniformRange (a b : Option JSNum) : JSNum × JSNum :=
  let av := orDefault a (num 0)
  let bv := orDefault b (num 1)
  let range := jsub bv av
  (jsub av (jmul (num (1/10)) range), jadd bv (jmul (num (1/10)) range))

/-- `lognormal.rangeCalculator`. -/
def lognormalRange (M : JSMath) (mu sigma : Option JSNum) : JSNum × JSNum :=
  let m := orDefault mu (num 0)
  let s := orDefault sigma (num 1)
  let mean := M.exp (jadd m (jdiv (jmul s s) (num 2)))
  (num 0, jadd mean (jmul (num 3) (M.sqrt (jmul (jsub (M.exp (jmul s s)) (num 1))
    (M.exp (jadd (jmul (num 2) m) (jmul s s)))))))

/-- `chi2.rangeCalculator`. -/
def chi2Range (M : JSMath) (k : Option JSNum) : JSNum × JSNum :=
  let kv := orDefault k (num 1)
  (num 0, jadd kv (jmul (num 4) (M.sqrt (jmul (num 2) kv))))

/-- `student.rangeCalculator`. -/
def studentRange (M : JSMath) (nu : Option JSNum) : JSNum × JSNum :=
  let n := orDefault nu (num 1)
  let scale := if jgtb n (num 2) then M.sqrt (jdiv n (jsub n (num 2))) else num 3
  (jmul (num (-4)) scale, jmul (num 4) scale)

/-- `binomial.rangeCalculator`: `{0, n}` with default `n = 10`. -/
def binomialRange (n : Option JSNum) : JSNum × JSNum :=
  let nv := orDefault n (num 10)
  (num 0, nv)

/-- `poisson.rangeCalculator`. -/
def poissonRange (M : JSMath) (lambda : Option JSNum) : JSNum × JSNum :=
  let l := orDefault lambda (num 3)
  (num 0, jmax (num 20) (jceil (jadd l (jmul (num 4) (M.sqrt l)))))

/-- `geometric.rangeCalculator`. -/
def geometricRange (M : JSMath) (p : Option JSNum) : JSNum × JSNum :=
  let pv := orDefault p (num (3/10))
  (num 1, jmax (num 10) (jceil (jdiv (jneg (M.log (num (1/100))))
    (M.log (jsub (num 1) pv)))))

/-- `negativeBinomial.rangeCalculator`. -/
def negativeBinomialRange (M : JSMath) (r p : Option JSNum) : JSNum × JSNum :=
  let rv := orDefault r (num 5)
  let pv := orDefault p (num (3/10))
  let mean := jdiv rv pv
  (rv, jmax (jadd rv (num 10)) (jceil (jadd mean (jmul (num 4)
    (M.sqrt (jdiv (jmul mean (jsub (num 1) pv)) pv))))))

/-- `bernoulli.rangeCalculator`: always `{0, 1}`. -/
def bernoulliRange : JSNum × JSNum := (num 0, num 1)

/-- `discreteUniform.rangeCalculator`: `{lower, upper}` with defaults
`lower = 1`, `upper = 6`. -/
def discreteUniformRange (lower upper : Option JSNum) : JSNum × JSNum :=
  let l := orDefault lower (num 1)
  let u := orDefault upper (num 6)
  (l, u)

/-- `hypergeometric.rangeCalculator`: `{max(0, n−(N−K)), min(n, K)}` with
defaults `N = 50`, `K = 20`, `n = 10`. -/
def hypergeometricRange (bigN bigK n : Option JSNum) : JSNum × JSNum :=
  let nv := orDefault bigN (num 50)
  let kv := orDefault bigK (num 20)
  let sv := orDefault n (num 10)
  (jmax (num 0) (jsub sv (jsub nv kv)), jmin sv kv)

/-- `betaBinomial.rangeCalculator`: `{0, n}` with default `n = 10`. -/
def betaBinomialRange (n : Option JSNum) : JSNum × JSNum :=
  let nv := orDefault n (num 10)
  (num 0, nv)

/-- `discreteWeibull.rangeCalculator`: scans `x = 1..50` for the first point
where `x^β·ln q < −10` and caps the bound at 30 (staying at 10 if no such
point is found). -/
def discreteWeibullRange (M : JSMath) (q betaP : Option JSNum) : JSNum × JSNum :=
  let qv := orDefault q (num (1/2))
  let bv := orDefault betaP (num 1)
  let found := (List.range' 1 50).find?
    (fun xi => jltb (jmul (jpow M (num (xi : ℚ)) bv) (M.log qv)) (num (-10)))
  let maxX : JSNum := match found with
    | some xi => num (xi : ℚ)
    | none => num 10
  (num 0, jmin maxX (num 30))

/-- `cauchy.rangeCalculator`. -/
def cauchyRange (x0 gammaP : Option JSNum) : JSNum × JSNum :=
  let xv := orDefault x0 (num 0)
  let g := orDefault gammaP (num 1)
  (jsub xv (jmul (num 10) g), jadd xv (jmul (num 10) g))

/-- `laplace.rangeCalculator`. -/
def laplaceRange (mu b : Option JSNum) : JSNum × JSNum :=
  let m := orDefault mu (num 0)
  let bv := orDefault b (num 1)
  (jsub m (jmul (num 6) bv), jadd m (jmul (num 6) bv))

/-- `logistic.rangeCalculator`. -/
def logisticRange (mu s : Option JSNum) : JSNum × JSNum :=
  let m := orDefault mu (num 0)
  let sv := orDefault s (num 1)
  (jsub m (jmul (num 6) sv), jadd m (jmul (num 6) sv))

/-- `gumbel.rangeCalculator`. -/
def gumbelRange (mu betaP : Option JSNum) : JSNum × JSNum :=
  let m := orDefault mu (num 0)
  let bv := orDefault betaP (num 1)
  (jsub m (jmul (num 3) bv), jadd m (jmul (num 8) bv))

/-- `weibull.rangeCalculator`. -/
def weibullRange (M : JSMath) (alpha betaP : Option JSNum) : JSNum × JSNum :=
  let a := orDefault alpha (num 2)
  let b := orDefault betaP (num 1)
  let mx := jmul b (jpow M (jneg (M.log (num (1/1000)))) (jdiv (num 1) a))
  (num 0, jmin mx (jmul b (num 5)))

/-- `pareto.rangeCalculator`. -/
def paretoRange (M : JSMath) (alpha m : Option JSNum) : JSNum × JSNum :=
  let a := orDefault alpha (num 1)
  let mv := orDefault m (num 1)
  let mx := jmul mv (jpow M (num 1000) (jdiv (num 1) a))
  (mv, jmin mx (jmul mv (num 10)))

/-- `halfNormal.rangeCalculator`. -/
def halfNormalRange (sigma : Option JSNum) : JSNum × JSNum :=
  let s := orDefault sigma (num 1)
  (num 0, jmul (num 4) s)

/-- `halfCauchy.rangeCalculator`. -/
def halfCauchyRange (betaP : Option JSNum) : JSNum × JSNum :=
  let b := orDefault betaP (num 1)
  (num 0, jmul (num 10) b)

/-- `inverseGamma.rangeCalculator`. -/
def inverseGammaRange (alpha betaP : Option JSNum) : JSNum × JSNum :=
  let a := orDefault alpha (num 2)
  let b := orDefault betaP (num 1)
  let mean := if jgtb a (num 1) then jdiv b (jsub a (num 1)) else b
  (num (1/1000), jmul mean (num 5))

/-- `triangular.rangeCalculator`. -/
def triangularRange (lower upper : Option JSNum) : JSNum × JSNum :=
  let l := orDefault lower (num 0)
  let u := orDefault upper (num 1)
  let padding := jmul (jsub u l) (num (1/10))
  (jsub l padding, jadd u padding)

/-- `kumaraswamy.rangeCalculator`: always `{0, 1}`. -/
def kumaraswamyRange : JSNum × JSNum := (num 0, num 1)

/-- `asymmetricLaplace.rangeCalculator`. -/
def asymmetricLaplaceRange (mu b kappa : Option JSNum) : JSNum × JSNum :=
  let m := orDefault mu (num 0)
  let bv := orDefault b (num 1)
  let k := orDefault kappa (num 1)
  let leftScale := jdiv bv k
  let rightScale := jmul bv k
  (jsub m (jmul (num 6) leftScale), jadd m (jmul (num 6) rightScale))

/-- `skewNormal.rangeCalculator`. -/
def skewNormalRange (mu sigma alpha : Option JSNum) : JSNum × JSNum :=
  let m := orDefault mu (num 0)
  let s := orDefault sigma (num 1)
  let a := orDefault alpha (num 0)
  let extension := if jgtb (jabs a) (num 2) then num (3/2) else num 1
  (jsub m (jmul (jmul (num 4) s) extension), jadd m (jmul (jmul (num 4) s) extension))

/-- `halfStudentT.rangeCalculator`. -/
def halfStudentTRange (M : JSMath) (nu sigma : Option JSNum) : JSNum × JSNum :=
  let n := orDefault nu (num 2)
  let s := orDefault sigma (num 1)
  let scale := if jgtb n (num 2) then M.sqrt (jdiv n (jsub n (num 2))) else num 2
  (num 0, jmul (jmul (num 5) s) scale)

/-- `logitNormal.rangeCalculator`: always `{0.001, 0.999}`. -/
def logitNormalRange : JSNum × JSNum := (num (1/1000), num (999/1000))

/-- `wald.rangeCalculator`. -/
def waldRange (M : JSMath) (mu lam : Option JSNum) : JSNum × JSNum :=
  let m := orDefault mu (num 1)
  let l := orDefault lam (num 1)
  let cv := M.sqrt (jdiv m l)
  (num (1/1000), jadd m (jmul (jmul (num 4) m) cv))

/-- `moyal.rangeCalculator`. -/
def moyalRange (mu sigma : Option JSNum) : JSNum × JSNum :=
  let m := orDefault mu (num 0)
  let s := orDefault sigma (num 1)
  (jsub m (jmul (num 3) s), jadd m (jmul (num 10) s))

/-- `exGaussian.rangeCalculator`. -/
def exGaussianRange (mu sigma lam : Option JSNum) : JSNum × JSNum :=
  let m := orDefault mu (num 0)
  let s := orDefault sigma (num 1)
  let l := orDefault lam (num 1)
  (jsub m (jmul (num 3) s), jadd (jadd m (jmul (num 4) s)) (jdiv (num 3) l))

/-- `vonMises.rangeCalculator`: always `{−π, π}`. -/
def vonMisesRange : JSNum × JSNum := (num (-piQ), num piQ)

/-- `rice.rangeCalculator`. -/
def riceRange (M : JSMath) (nu sigma : Option JSNum) : JSNum × JSNum :=
  let n := orDefault nu (num 1)
  let s := orDefault sigma (num 1)
  let mean := jmul (jmul s (M.sqrt (num (piQ / 2))))
    (M.exp (jdiv (jmul (jneg n) n) (jmul (jmul (num 4) s) s)))
  (num 0, jmax (jadd n (jmul (num 4) s)) (jadd mean (jmul (num 4) s)))

/-- `truncatedNormal.rangeCalculator`. -/
def truncatedNormalRange (lower upper : Option JSNum) : JSNum × JSNum :=
  let l := orDefault lower (num (-2))
  let u := orDefault upper (num 2)
  let padding := jmul (jsub u l) (num (1/20))
  (jsub l padding, jadd u padding)

/-- One concrete interpretation of the abstract `Math` primitives, used to
instantiate witnesses and counterexamples; like IEEE `Math.exp`, it maps
`NaN` to `NaN`. -/
def M0 : JSMath where
  exp := fun x => match x with | nan => nan | _ => num 1
  log := fun x => match x with | nan => nan | _ => num 0
  sqrt := fun x => match x with | nan => nan | _ => num 1
  sin := fun x => match x with | nan => nan | _ => num 0
  cos := fun x => match x with | nan => nan | _ => num 1
  powF := fun _ _ => num 1

end Dist

namespace Dist

namespace JSNum

@[simp] theorem jadd_num (a b : ℚ) : jadd (num a) (num b) = num (a + b) := rfl

@[simp] theorem jsub_num (a b : ℚ) : jsub (num a) (num b) = num (a - b) := rfl

@[simp] theorem jmul_num (a b : ℚ) : jmul (num a) (num b) = num (a * b) := rfl

@[simp] theorem jneg_num (a : ℚ) : jneg (num a) = num (-a) := rfl

@[simp] theorem jabs_num (a : ℚ) : jabs (num a) = num |a| := rfl

@[simp] theorem jmax_num (a b : ℚ) : jmax (num a) (num b) = num (max a b) := rfl

@[simp] theorem jmin_num (a b : ℚ) : jmin (num a) (num b) = num (min a b) := rfl

@[simp] theorem jceil_num (a : ℚ) : jceil (num a) = num (⌈a⌉ : ℤ) := rfl

@[simp] theorem jdiv_num {b : ℚ} (a : ℚ) (h : b ≠ 0) :
    jdiv (num a) (num b) = num (a / b) := by
  simp [jdiv, h]

@[simp] theorem jltb_num_true {a b : ℚ} (h : a < b) : jltb (num a) (num b) = true := by
  simp [jltb, h]

@[simp] theorem jltb_num_false {a b : ℚ} (h : b ≤ a) : jltb (num a) (num b) = false := by
  simp only [jltb, decide_eq_false_iff_not]
  exact not_lt.mpr h

@[simp] theorem jleb_num_true {a b : ℚ} (h : a ≤ b) : jleb (num a) (num b) = true := by
  simp [jleb, h]

@[simp] theorem jleb_num_false {a b : ℚ} (h : b < a) : jleb (num a) (num b) = false := by
  simp only [jleb, decide_eq_false_iff_not]
  exact not_le.mpr h

theorem jgtb_eq (a b : JSNum) : jgtb a b = jltb b a := rfl

theorem jgeb_eq (a b : JSNum) : jgeb a b = jleb b a := rfl

@[simp] theorem jgtb_num_true {a b : ℚ} (h : b < a) : jgtb (num a) (num b) = true := by
  simp [jgtb_eq, h]

@[simp] theorem jgtb_num_false {a b : ℚ} (h : a ≤ b) : jgtb (num a) (num b) = false := by
  simp [jgtb_eq, h]

@[simp] theorem jgeb_num_true {a b : ℚ} (h : b ≤ a) : jgeb (num a) (num b) = true := by
  simp [jgeb_eq, h]

@[simp] theorem jgeb_num_false {a b : ℚ} (h : a < b) : jgeb (num a) (num b) = false := by
  simp [jgeb_eq, h]

@[simp] theorem jeqb_num_true {a b : ℚ} (h : a = b) : jeqb (num a) (num b) = true := by
  simp [jeqb, h]

@[simp] theorem jeqb_num_false {a b : ℚ} (h : a ≠ b) : jeqb (num a) (num b) = false := by
  simp [jeqb, h]

@[simp] theorem isFiniteB_num (a : ℚ) : isFiniteB (num a) = true := rfl

@[simp] theorem isFiniteB_nan : isFiniteB nan = false := rfl

@[simp] theorem isFiniteB_inf : isFiniteB inf = false := rfl

@[simp] theorem isFiniteB_ninf : isFiniteB ninf = false := rfl

@[simp] theorem isIntB_num_true {q : ℚ} (h : q.den = 1) : isIntB (num q) = true := by
  simp [isIntB, h]

@[simp] theorem isIntB_num_false {q : ℚ} (h : q.den ≠ 1) : isIntB (num q) = false := by
  simp [isIntB, h]

@[simp] theorem isIntB_nan : isIntB nan = false := rfl

@[simp] theorem isIntB_inf : isIntB inf = false := rfl

@[simp] theorem isIntB_ninf : isIntB ninf = false := rfl

@[simp] theorem jadd_nan_left (a : JSNum) : jadd nan a = nan := by
  cases a <;> rfl

@[simp] theorem jadd_nan_right (a : JSNum) : jadd a nan = nan := by
  cases a <;> rfl

@[simp] theorem jsub_nan_left (a : JSNum) : jsub nan a = nan := by
  cases a <;> rfl

@[simp] theorem jsub_nan_right (a : JSNum) : jsub a nan = nan := by
  cases a <;> rfl

@[simp] theorem jmul_nan_left (a : JSNum) : jmul nan a = nan := by
  cases a <;> rfl

@[simp] theorem jmul_nan_right (a : JSNum) : jmul a nan = nan := by
  cases a <;> rfl

@[simp] theorem jdiv_nan_left (a : JSNum) : jdiv nan a = nan := by
  cases a <;> rfl

@[simp] theorem jdiv_nan_right (a : JSNum) : jdiv a nan = nan := by
  cases a <;> rfl

@[simp] theorem jneg_nan : jneg nan = nan := rfl

@[simp] theorem jabs_nan : jabs nan = nan := rfl

@[simp] theorem jltb_nan_left (a : JSNum) : jltb nan a = false := by
  cases a <;> rfl

@[simp] theorem jltb_nan_right (a : JSNum) : jltb a nan = false := by
  cases a <;> rfl

@[simp] theorem jleb_nan_left (a : JSNum) : jleb nan a = false := by
  cases a <;> rfl

@[simp] theorem jleb_nan_right (a : JSNum) : jleb a nan = false := by
  cases a <;> rfl

@[simp] theorem jgtb_nan_left (a : JSNum) : jgtb nan a = false := by
  rw [jgtb_eq]; exact jltb_nan_right a

@[simp] theorem jgtb_nan_right (a : JSNum) : jgtb a nan = false := by
  cases a <;> rfl

@[simp] theorem jgeb_nan_left (a : JSNum) : jgeb nan a = false := by
  rw [jgeb_eq]; exact jleb_nan_right a

@[simp] theorem jgeb_nan_right (a : JSNum) : jgeb a nan = false := by
  cases a <;> rfl

@[simp] theorem jeqb_nan_left (a : JSNum) : jeqb nan a = false := by
  cases a <;> rfl

@[simp] theorem jeqb_nan_right (a : JSNum) : jeqb a nan = false := by
  cases a <;> rfl

theorem jadd_comm (a b : JSNum) : jadd a b = jadd b a := by
  cases a <;> cases b <;> simp [jadd, add_comm]

theorem jmul_comm (a b : JSNum) : jmul a b = jmul b a := by
  cases a <;> cases b <;> simp [jmul, mul_comm]

end JSNum

open JSNum

@[simp] theorem jpow_exp_nan (M : JSMath) (x : JSNum) : jpow M x nan = nan := by
  cases x <;> rfl

@[simp] theorem jpow_exp_zero (M : JSMath) (x : JSNum) : jpow M x (num 0) = num 1 := by
  cases x <;> simp [jpow]

@[simp] theorem jpow_nan_num {e : ℚ} (M : JSMath) (h : e ≠ 0) :
    jpow M nan (num e) = nan := by
  simp [jpow, h]

theorem jpow_num_int {b e : ℚ} (M : JSMath) (he : e ≠ 0) (hd : e.den = 1) (hb : b ≠ 0) :
    jpow M (num b) (num e) = num (b ^ e.num) := by
  simp [jpow, he, hd, hb]

@[simp] theorem orDefault_none (d : JSNum) : orDefault none d = d := rfl

@[simp] theorem orDefault_some_zero (d : JSNum) : orDefault (some (num 0)) d = d := by
  simp [orDefault, jfalsy]

@[simp] theorem orDefault_some_num {q : ℚ} (d : JSNum) (h : q ≠ 0) :
    orDefault (some (num q)) d = num q := by
  simp [orDefault, jfalsy, h]

end Dist

namespace Dist

open JSNum

theorem gamma_nan (M : JSMath) : gamma M nan = nan := by
  have hl : gammaLanczos M nan = nan := by
    simp [gammaLanczos, List.range_succ]
  simp [gamma, gammaFuel, hl]

theorem beta_nan_two (M : JSMath) : beta M nan (num 2) = nan := by
  norm_num [beta, gamma_nan]

/-- C1 counterexample: with a NaN first shape parameter the Beta evaluator
returns `0`, not `NaN` — the kernel Beta value comes out NaN, and the
evaluator's non-finite check coerces it to `0`.  This refutes the claim that
a NaN parameter propagates to a NaN result for every evaluator, Beta's
included. -/
theorem C1_counterexample :
    betaPdf M0 (num (1/2)) JSNum.nan (num 2) = num 0 ∧ num 0 ≠ JSNum.nan := by
  refine ⟨?_, by simp⟩
  norm_num [betaPdf, beta_nan_two]

/-- C1 (amended): the Normal evaluator propagates NaN — `normal.pdf(NaN,0,1)`,
`normal.pdf(0,NaN,1)` and `normal.pdf(0,0,NaN)` are all NaN, while
`normal.pdf(0,0,-1) = 0` (invalid domain) — but NaN propagation does not hold
for every evaluator: the Beta evaluator returns `0` when a shape parameter is
NaN.  The only fact used about the abstract `Math.exp` is that it maps NaN to
NaN, as IEEE does. -/
theorem C1_theorem (M : JSMath) (hexp : M.exp JSNum.nan = JSNum.nan) :
    normalPdf M JSNum.nan (num 0) (num 1) = JSNum.nan ∧
    normalPdf M (num 0) JSNum.nan (num 1) = JSNum.nan ∧
    normalPdf M (num 0) (num 0) JSNum.nan = JSNum.nan ∧
    normalPdf M (num 0) (num 0) (num (-1)) = num 0 ∧
    betaPdf M (num (1/2)) JSNum.nan (num 2) = num 0 := by
  refine ⟨?_, ?_, ?_, ?_, ?_⟩
  · norm_num [normalPdf, hexp]
  · norm_num [normalPdf, hexp]
  · norm_num [normalPdf, hexp]
  · norm_num [normalPdf]
  · norm_num [betaPdf, beta_nan_two]

/-- C1 witness: the amended theorem applied to the concrete interpretation
`M0`, whose `exp` maps NaN to NaN by definition. -/
theorem C1_witness :
    M0.exp JSNum.nan = JSNum.nan ∧ normalPdf M0 JSNum.nan (num 0) (num 1) = JSNum.nan :=
  ⟨rfl, (C1_theorem M0 rfl).1⟩

/-- C2 counterexample: the Binomial evaluator does not validate that its
integer-only parameter `n` is an integer: with the non-integer `n = 5/2` it
returns `1` (via the `p = 0` branch), not `0`. -/
theorem C2_counterexample :
    isIntB (num (5/2)) = false ∧
    binomialPdf M0 (num 0) (num (5/2)) (num 0) = num 1 ∧ num 1 ≠ num 0 := by
  refine ⟨by norm_num, ?_, by simp⟩
  norm_num [binomialPdf]

/-- C2 (amended): every one of the 38 evaluators returns `0` when a
scale/shape/probability/ordering parameter violates its stated constraint
(scale or shape ≤ 0, probability > 1, inverted bounds, negative counts), and
in this embedding every evaluator is a total function (nothing throws); but a
non-integer value supplied for an integer-only parameter — such as Binomial's
number of trials `n` — is not rejected: `binomial.pdf(0, 2.5, 0) = 1`. -/
theorem C2_theorem (M : JSMath) (s p l u r q n0 : ℚ)
    (hs : s ≤ 0) (hp : 1 < p) (hul : u < l) (hr : r < 1) (hq : 1 ≤ q) (hn0 : n0 < 0) :
    (∀ x mu, normalPdf M x mu (num s) = num 0) ∧
    (∀ x b, betaPdf M x (num s) b = num 0) ∧
    (∀ x b, gammaPdf M x (num s) b = num 0) ∧
    (∀ x, exponentialPdf M x (num s) = num 0) ∧
    (∀ x, uniformPdf x (num l) (num u) = num 0) ∧
    (∀ x mu, lognormalPdf M x mu (num s) = num 0) ∧
    (∀ x, chi2Pdf M x (num s) = num 0) ∧
    (∀ x, studentPdf M x (num s) = num 0) ∧
    (∀ k n, binomialPdf M k n (num p) = num 0) ∧
    (∀ k, poissonPdf M k (num s) = num 0) ∧
    (∀ k, geometricPdf M k (num s) = num 0) ∧
    (∀ k pp, negativeBinomialPdf M k (num r) pp = num 0) ∧
    (∀ x, bernoulliPdf x (num p) = num 0) ∧
    (∀ x, discreteUniformPdf x (num l) (num u) = num 0) ∧
    (∀ x N n, hypergeometricPdf M x N (num n0) n = num 0) ∧
    (∀ x n b, betaBinomialPdf M x n (num s) b = num 0) ∧
    (∀ x b, discreteWeibullPdf M x (num q) b = num 0) ∧
    (∀ x x0, cauchyPdf x x0 (num s) = num 0) ∧
    (∀ x mu, laplacePdf M x mu (num s) = num 0) ∧
    (∀ x mu, logisticPdf M x mu (num s) = num 0) ∧
    (∀ x mu, gumbelPdf M x mu (num s) = num 0) ∧
    (∀ x b, weibullPdf M x (num s) b = num 0) ∧
    (∀ x m, paretoPdf M x (num s) m = num 0) ∧
    (∀ x, halfNormalPdf M x (num s) = num 0) ∧
    (∀ x, halfCauchyPdf x (num s) = num 0) ∧
    (∀ x b, inverseGammaPdf M x (num s) b = num 0) ∧
    (∀ x lo, triangularPdf x lo (num l) (num u) = num 0) ∧
    (∀ x b, kumaraswamyPdf M x (num s) b = num 0) ∧
    (∀ x mu k, asymmetricLaplacePdf M x mu (num s) k = num 0) ∧
    (∀ x mu a, skewNormalPdf M x mu (num s) a = num 0) ∧
    (∀ x sg, halfStudentTPdf M x (num s) sg = num 0) ∧
    (∀ x mu, logitNormalPdf M x mu (num s) = num 0) ∧
    (∀ x lam, waldPdf M x (num s) lam = num 0) ∧
    (∀ x mu, moyalPdf M x mu (num s) = num 0) ∧
    (∀ x mu lam, exGaussianPdf M x mu (num s) lam = num 0) ∧
    (∀ x mu, vonMisesPdf M x mu (num s) = num 0) ∧
    (∀ x nu, ricePdf M x nu (num s) = num 0) ∧
    (∀ x mu lo up, truncatedNormalPdf M x mu (num s) lo up = num 0) ∧
    (isIntB (num (5/2)) = false ∧ binomialPdf M (num 0) (num (5/2)) (num 0) = num 1) := by
  have hul' : u ≤ l := le_of_lt hul
  refine ⟨?_, ?_, ?_, ?_, ?_, ?_, ?_, ?_, ?_, ?_, ?_, ?_, ?_, ?_, ?_, ?_, ?_, ?_, ?_,
    ?_, ?_, ?_, ?_, ?_, ?_, ?_, ?_, ?_, ?_, ?_, ?_, ?_, ?_, ?_, ?_, ?_, ?_, ?_, ?_, ?_⟩
  all_goals intros
  all_goals norm_num [normalPdf, betaPdf, gammaPdf, exponentialPdf, uniformPdf,
    lognormalPdf, chi2Pdf, studentPdf, binomialPdf, poissonPdf, geometricPdf,
    negativeBinomialPdf, bernoulliPdf, discreteUniformPdf, hypergeometricPdf,
    betaBinomialPdf, discreteWeibullPdf, cauchyPdf, laplacePdf, logisticPdf,
    gumbelPdf, weibullPdf, paretoPdf, halfNormalPdf, halfCauchyPdf, inverseGammaPdf,
    triangularPdf, kumaraswamyPdf, asymmetricLaplacePdf, skewNormalPdf,
    halfStudentTPdf, logitNormalPdf, waldPdf, moyalPdf, exGaussianPdf, vonMisesPdf,
    ricePdf, truncatedNormalPdf, hs, hp, hul, hul', hr, hq, hn0]

/-- C2 witness: the amended theorem at concrete violating parameters
(`sigma = -1` for Normal) and the non-integer trials count `n = 5/2`. -/
theorem C2_witness :
    normalPdf M0 (num 7) (num 0) (num (-1)) = num 0 ∧
    binomialPdf M0 (num 0) (num (5/2)) (num 0) = num 1 := by
  obtain ⟨h1, h⟩ := C2_theorem M0 (-1) 2 1 0 (1/2) 1 (-1) (by norm_num) (by norm_num)
    (by norm_num) (by norm_num) (by norm_num) (by norm_num)
  refine ⟨h1 (num 7) (num 0), ?_⟩
  exact h.2.2.2.2.2.2.2.2.2.2.2.2.2.2.2.2.2.2.2.2.2.2.2.2.2.2.2.2.2.2.2.2.2.2.2.2.2.2

/-- C3: the Beta evaluator's boundary table for shape parameters
`α, β > 0` — at `x = 0` it returns `0` for `α > 1`, `+∞` for `α < 1`, and
`1/B(α,β)` for `α = 1` (when the kernel Beta value is a positive finite
number, which it is in IEEE arithmetic for these parameters), and
symmetrically at `x = 1` governed by `β`.  In particular `α = β = 2` gives
`0` at both endpoints and `α = β = 1/2` gives `+∞` at both, as the witness
shows. -/
theorem C3_theorem (M : JSMath) (a b : ℚ) (ha : 0 < a) (hb : 0 < b) :
    (1 < a → betaPdf M (num 0) (num a) (num b) = num 0) ∧
    (a < 1 → betaPdf M (num 0) (num a) (num b) = JSNum.inf) ∧
    (∀ r : ℚ, a = 1 → beta M (num a) (num b) = num r → 0 < r →
      betaPdf M (num 0) (num a) (num b) = num (1/r)) ∧
    (1 < b → betaPdf M (num 1) (num a) (num b) = num 0) ∧
    (b < 1 → betaPdf M (num 1) (num a) (num b) = JSNum.inf) ∧
    (∀ r : ℚ, b = 1 → beta M (num a) (num b) = num r → 0 < r →
      betaPdf M (num 1) (num a) (num b) = num (1/r)) := by
  refine ⟨?_, ?_, ?_, ?_, ?_, ?_⟩
  · intro h1
    norm_num [betaPdf, ha, hb, h1]
  · intro h1
    norm_num [betaPdf, ha, hb, h1, le_of_lt h1]
  · intro r h1 hbv hr
    subst h1
    norm_num [betaPdf, hb, hbv, hr, ne_of_gt hr]
  · intro h1
    norm_num [betaPdf, ha, hb, h1]
  · intro h1
    norm_num [betaPdf, ha, hb, h1, le_of_lt h1]
  · intro r h1 hbv hr
    subst h1
    norm_num [betaPdf, ha, hbv, hr, ne_of_gt hr]

/-- C3 witness: `Beta(x; 2, 2)` is `0` at both `x = 0` and `x = 1`, and
`Beta(x; 1/2, 1/2)` is `+∞` at both endpoints. -/
theorem C3_witness :
    betaPdf M0 (num 0) (num 2) (num 2) = num 0 ∧
    betaPdf M0 (num 1) (num 2) (num 2) = num 0 ∧
    betaPdf M0 (num 0) (num (1/2)) (num (1/2)) = JSNum.inf ∧
    betaPdf M0 (num 1) (num (1/2)) (num (1/2)) = JSNum.inf := by
  have h1 := C3_theorem M0 2 2 (by norm_num) (by norm_num)
  have h2 := C3_theorem M0 (1/2) (1/2) (by norm_num) (by norm_num)
  exact ⟨h1.1 (by norm_num), h1.2.2.2.1 (by norm_num), h2.2.1 (by norm_num),
    h2.2.2.2.2.1 (by norm_num)⟩

/-- C4: all nine discrete evaluators return `0` at every non-integer
evaluation point, whatever the remaining parameters; moreover
`binomial.pdf(k, 10, 1/2)` is `0` for `k < 0` and for `k > 10`, and
`binomial.pdf(5, 10, 1/2)` is exactly `63/256 = 0.24609375`. -/
theorem C4_theorem (M : JSMath) (x k1 k2 : ℚ) (hx : x.den ≠ 1)
    (hk1 : k1 < 0) (hk2 : 10 < k2) :
    (∀ n p, binomialPdf M (num x) n p = num 0) ∧
    (∀ lam, poissonPdf M (num x) lam = num 0) ∧
    (∀ p, geometricPdf M (num x) p = num 0) ∧
    (∀ r p, negativeBinomialPdf M (num x) r p = num 0) ∧
    (∀ p, bernoulliPdf (num x) p = num 0) ∧
    (∀ lo up, discreteUniformPdf (num x) lo up = num 0) ∧
    (∀ N K n, hypergeometricPdf M (num x) N K n = num 0) ∧
    (∀ n a b, betaBinomialPdf M (num x) n a b = num 0) ∧
    (∀ q b, discreteWeibullPdf M (num x) q b = num 0) ∧
    (binomialPdf M (num k1) (num 10) (num (1/2)) = num 0) ∧
    (binomialPdf M (num k2) (num 10) (num (1/2)) = num 0) ∧
    (binomialPdf M (num 5) (num 10) (num (1/2)) = num (63/256)) := by
  have hx0 : x ≠ 0 := by
    intro h
    exact hx (by rw [h]; rfl)
  have hx1 : x ≠ 1 := by
    intro h
    exact hx (by rw [h]; rfl)
  have h5 : loopCount (num 5) = 5 := by simp [loopCount]
  refine ⟨?_, ?_, ?_, ?_, ?_, ?_, ?_, ?_, ?_, ?_, ?_, ?_⟩
  all_goals intros
  · norm_num [binomialPdf, hx]
  · norm_num [poissonPdf, hx]
  · norm_num [geometricPdf, hx]
  · norm_num [negativeBinomialPdf, hx]
  · norm_num [bernoulliPdf, hx0, hx1]
  · norm_num [discreteUniformPdf, hx]
  · norm_num [hypergeometricPdf, hx]
  · norm_num [betaBinomialPdf, hx]
  · norm_num [discreteWeibullPdf, hx]
  · norm_num [binomialPdf, hk1]
  · norm_num [binomialPdf, hk2]
  · simp only [binomialPdf, h5, List.range_succ, List.foldl_append, List.foldl_cons,
      List.foldl_nil]
    norm_num [jpow_num_int]

/-- C4 witness: the theorem at `x = 5/2`, `k = -1`, `k = 11`, together with
the exact value `binomial.pdf(5, 10, 1/2) = 63/256`. -/
theorem C4_witness :
    binomialPdf M0 (num (5/2)) (num 10) (num (1/2)) = num 0 ∧
    poissonPdf M0 (num (5/2)) (num 3) = num 0 ∧
    binomialPdf M0 (num (-1)) (num 10) (num (1/2)) = num 0 ∧
    binomialPdf M0 (num 11) (num 10) (num (1/2)) = num 0 ∧
    binomialPdf M0 (num 5) (num 10) (num (1/2)) = num (63/256) := by
  obtain ⟨h1, h2, _, _, _, _, _, _, _, h10, h11, h12⟩ :=
    C4_theorem M0 (5/2) (-1) 11 (by norm_num) (by norm_num) (by norm_num)
  exact ⟨h1 (num 10) (num (1/2)), h2 (num 3), h10, h11, h12⟩

end Dist

namespace Dist

open JSNum

/-- C5 counterexample: the Discrete Uniform range estimator, called with the
valid parameter assignment `lower = upper = 5` (a one-point support the
evaluator itself accepts), returns the pair `{5, 5}` — so `min < max` fails
for this estimator. -/
theorem C5_counterexample :
    discreteUniformRange (some (num 5)) (some (num 5)) = (num 5, num 5) ∧
    jltb (num 5) (num 5) = false := by
  norm_num [discreteUniformRange]

/-- C5 (amended): range estimators with strictly positive spread do return
`min < max` — Normal for any `mu` and any `sigma > 0`, Exponential for any
`lambda > 0` — but `min < max` does not hold for every estimator on every
valid parameter assignment: Discrete Uniform returns `min = max` whenever the
effective `lower` and `upper` coincide, and Hypergeometric returns
`min = max` when `N = K = n` (e.g. all `10`). -/
theorem C5_theorem (mu sigma lam l : ℚ) (hs : 0 < sigma) (hl : 0 < lam) (hlz : l ≠ 0) :
    jltb (normalRange (some (num mu)) (some (num sigma))).1
      (normalRange (some (num mu)) (some (num sigma))).2 = true ∧
    jltb (exponentialRange (some (num lam))).1 (exponentialRange (some (num lam))).2
      = true ∧
    discreteUniformRange (some (num l)) (some (num l)) = (num l, num l) ∧
    hypergeometricRange (some (num 10)) (some (num 10)) (some (num 10))
      = (num 10, num 10) := by
  refine ⟨?_, ?_, ?_, ?_⟩
  · by_cases hmu : mu = 0
    · subst hmu
      norm_num [normalRange, ne_of_gt hs]
      exact jltb_num_true (by linarith)
    · norm_num [normalRange, ne_of_gt hs, hmu]
      exact jltb_num_true (by linarith)
  · norm_num [exponentialRange, ne_of_gt hl]
    exact jltb_num_true (by positivity)
  · norm_num [discreteUniformRange, hlz]
  · norm_num [hypergeometricRange]

/-- C5 witness: the amended theorem at `mu = sigma = lambda = 1` and
`lower = upper = 5`. -/
theorem C5_witness :
    jltb (normalRange (some (num 1)) (some (num 1))).1
      (normalRange (some (num 1)) (some (num 1))).2 = true ∧
    discreteUniformRange (some (num 5)) (some (num 5)) = (num 5, num 5) := by
  obtain ⟨h1, _, h3, _⟩ := C5_theorem 1 1 1 5 (by norm_num) (by norm_num) (by norm_num)
  exact ⟨h1, h3⟩

/-- C6 counterexample: the claim quantifies over all sigma values, but for
`s1 = 0 < s2 = 1/2` the width of the Normal range estimate does not grow:
supplying `sigma = 0` triggers the falsy-default substitution of `1`, so the
`s1 = 0` range has width `8` while the `s2 = 1/2` range has width `4`. -/
theorem C6_counterexample :
    (0 : ℚ) < 1/2 ∧
    jgtb (rangeWidth (normalRange none (some (num (1/2)))))
      (rangeWidth (normalRange none (some (num 0)))) = false := by
  refine ⟨by norm_num, ?_⟩
  norm_num [normalRange, rangeWidth]

/-- C6 (amended): the width of the Normal range estimate is strictly
increasing in sigma as long as `s1 ≠ 0`: for all `s1 < s2` with `s1 ≠ 0`, the
width at `s2` strictly exceeds the width at `s1` (supplying `sigma = 0` makes
the estimator substitute its default `1`, which breaks monotonicity only
there). -/
theorem C6_theorem (s1 s2 : ℚ) (h1 : s1 ≠ 0) (h12 : s1 < s2) :
    jgtb (rangeWidth (normalRange none (some (num s2))))
      (rangeWidth (normalRange none (some (num s1)))) = true := by
  by_cases h2 : s2 = 0
  · subst h2
    norm_num [normalRange, rangeWidth, h1]
    exact jgtb_num_true (by linarith)
  · norm_num [normalRange, rangeWidth, h1, h2]
    exact jgtb_num_true (by linarith)

/-- C6 witness: the amended theorem at `s1 = 1`, `s2 = 2`. -/
theorem C6_witness :
    jgtb (rangeWidth (normalRange none (some (num 2))))
      (rangeWidth (normalRange none (some (num 1)))) = true :=
  C6_theorem 1 2 (by norm_num) (by norm_num)

/-- C7: for every integer `k ≥ 0` and every `lambda > 0` the Poisson
evaluator returns exactly `exp(k·ln lambda − lambda − logFactorial(k))`
(with the kernel's `logFactorial`), and `poisson.pdf(3/2, 3) = 0` because
`3/2` is not an integer. -/
theorem C7_theorem (M : JSMath) (k lam : ℚ) (hk : k.den = 1) (hk0 : 0 ≤ k)
    (hl : 0 < lam) :
    poissonPdf M (num k) (num lam) =
      M.exp (jsub (jsub (jmul (num k) (M.log (num lam))) (num lam))
        (logFactorial M (num k))) ∧
    poissonPdf M (num (3/2)) (num 3) = num 0 := by
  constructor
  · norm_num [poissonPdf, hk, hk0, hl]
  · norm_num [poissonPdf]

/-- C7 witness: the theorem at `k = 3`, `lambda = 3` over the concrete
interpretation `M0`. -/
theorem C7_witness :
    poissonPdf M0 (num 3) (num 3) =
      M0.exp (jsub (jsub (jmul (num 3) (M0.log (num 3))) (num 3))
        (logFactorial M0 (num 3))) ∧
    poissonPdf M0 (num (3/2)) (num 3) = num 0 :=
  C7_theorem M0 3 3 (by norm_num) (by norm_num) (by norm_num)

/-- C8: the kernel Beta function is symmetric, `beta(a, b) = beta(b, a)`, for
all arguments (in particular all positive ones): the branch condition and
each branch's formula are invariant under swapping `a` and `b`. -/
theorem C8_theorem (M : JSMath) (a b : JSNum) : beta M a b = beta M b a := by
  unfold beta
  rw [jadd_comm b a, Bool.or_comm (jleb b (num 0)) (jleb a (num 0)),
    jmul_comm (gamma M b) (gamma M a), jadd_comm (logGamma M b) (logGamma M a)]
  have h2 : (jgtb b (num 50) || jgtb a (num 50) || jgtb (jadd a b) (num 50))
      = (jgtb a (num 50) || jgtb b (num 50) || jgtb (jadd a b) (num 50)) := by
    cases jgtb a (num 50) <;> cases jgtb b (num 50) <;> simp
  rw [h2]

theorem reflect_arg_not_small (z : JSNum) (h : jltb z (num (1/2)) = true) :
    jltb (jsub (num 1) z) (num (1/2)) = false := by
  cases z with
  | num q =>
    have hq : q < 1/2 := by
      by_contra hc
      rw [jltb_num_false (not_lt.mp hc)] at h
      exact Bool.false_ne_true h
    exact jltb_num_false (by linarith)
  | nan => simp at h
  | inf => simp [jltb] at h
  | ninf => rfl

theorem gammaFuel_succ (M : JSMath) (f : Nat) (w : JSNum) :
    gammaFuel M (f + 1) w =
      if jltb w (num (1/2)) then
        jdiv (num piQ) (jmul (M.sin (jmul (num piQ) w)) (gammaFuel M f (jsub (num 1) w)))
      else gammaLanczos M w := rfl

theorem gammaFuel_stable (M : JSMath) (n : Nat) (z : JSNum) :
    gammaFuel M (n + 2) z = gammaFuel M 2 z := by
  show gammaFuel M (n + 1 + 1) z = gammaFuel M (1 + 1) z
  rw [gammaFuel_succ M (n + 1) z, gammaFuel_succ M 1 z]
  by_cases h : jltb z (num (1/2)) = true
  · have hw := reflect_arg_not_small z h
    have hw' : ¬ jltb (jsub (num 1) z) (num (1/2)) = true := by
      rw [hw]
      exact Bool.false_ne_true
    rw [if_pos h, if_pos h, gammaFuel_succ M n (jsub (num 1) z),
      gammaFuel_succ M 0 (jsub (num 1) z), if_neg hw', if_neg hw']
  · rw [if_neg h, if_neg h]

/-- C9: the gamma function terminates on every input — running its recursion
with any extra fuel gives the same result as the fuel-2 run that defines
`gamma` — because the reflection branch taken when `z < 0.5` passes the
complementary argument `1 − z`, which never satisfies `1 − z < 0.5`, so the
single recursive call takes the non-recursive Lanczos branch. -/
theorem C9_theorem (M : JSMath) (z : JSNum) :
    (∀ n : Nat, gammaFuel M (n + 2) z = gamma M z) ∧
    (jltb z (num (1/2)) = true → jltb (jsub (num 1) z) (num (1/2)) = false) :=
  ⟨fun n => gammaFuel_stable M n z, reflect_arg_not_small z⟩

/-- C9 witness: at `z = 1/4` (a reflection-branch input) fuel 7 agrees with
the defining fuel-2 run, and the recursive argument `1 − 1/4 = 3/4` fails the
reflection test. -/
theorem C9_witness :
    gammaFuel M0 7 (num (1/4)) = gamma M0 (num (1/4)) ∧
    jltb (num (1/4)) (num (1/2)) = true ∧
    jltb (jsub (num 1) (num (1/4))) (num (1/2)) = false := by
  have h := C9_theorem M0 (num (1/4))
  exact ⟨h.1 5, by norm_num, h.2 (by norm_num)⟩

end Dist

namespace Dist

open JSNum

/-- C10: every range estimator substitutes its documented default for any
parameter supplied as `0` (the falsy `params.x || default` idiom), so a
supplied `0` is indistinguishable from a missing key: for each estimator and
each of its parameters, the call with that parameter `some 0` equals the call
with it missing.  In particular the Discrete Uniform estimator called with
`lower = 0, upper = 6` returns `{1, 6}`, excluding the support point `0`,
whose mass `discreteUniform.pdf(0, 0, 6) = 1/7` is nonzero. -/
theorem C10_theorem (M : JSMath) :
    discreteUniformRange (some (num 0)) (some (num 6)) = (num 1, num 6) ∧
    discreteUniformPdf (num 0) (num 0) (num 6) = num (1/7) ∧
    (∀ s, normalRange (some (num 0)) s = normalRange none s) ∧
    (∀ m, normalRange m (some (num 0)) = normalRange m none) ∧
    (∀ b, gammaRange M (some (num 0)) b = gammaRange M none b) ∧
    (∀ a, gammaRange M a (some (num 0)) = gammaRange M a none) ∧
    (exponentialRange (some (num 0)) = exponentialRange none) ∧
    (∀ b, uniformRange (some (num 0)) b = uniformRange none b) ∧
    (∀ a, uniformRange a (some (num 0)) = uniformRange a none) ∧
    (∀ s, lognormalRange M (some (num 0)) s = lognormalRange M none s) ∧
    (∀ m, lognormalRange M m (some (num 0)) = lognormalRange M m none) ∧
    (chi2Range M (some (num 0)) = chi2Range M none) ∧
    (studentRange M (some (num 0)) = studentRange M none) ∧
    (binomialRange (some (num 0)) = binomialRange none) ∧
    (poissonRange M (some (num 0)) = poissonRange M none) ∧
    (geometricRange M (some (num 0)) = geometricRange M none) ∧
    (∀ p, negativeBinomialRange M (some (num 0)) p = negativeBinomialRange M none p) ∧
    (∀ r, negativeBinomialRange M r (some (num 0)) = negativeBinomialRange M r none) ∧
    (∀ u, discreteUniformRange (some (num 0)) u = discreteUniformRange none u) ∧
    (∀ l, discreteUniformRange l (some (num 0)) = discreteUniformRange l none) ∧
    (∀ k n, hypergeometricRange (some (num 0)) k n = hypergeometricRange none k n) ∧
    (∀ bigN n, hypergeometricRange bigN (some (num 0)) n
      = hypergeometricRange bigN none n) ∧
    (∀ bigN k, hypergeometricRange bigN k (some (num 0))
      = hypergeometricRange bigN k none) ∧
    (betaBinomialRange (some (num 0)) = betaBinomialRange none) ∧
    (∀ b, discreteWeibullRange M (some (num 0)) b = discreteWeibullRange M none b) ∧
    (∀ q, discreteWeibullRange M q (some (num 0)) = discreteWeibullRange M q none) ∧
    (∀ g, cauchyRange (some (num 0)) g = cauchyRange none g) ∧
    (∀ x0, cauchyRange x0 (some (num 0)) = cauchyRange x0 none) ∧
    (∀ b, laplaceRange (some (num 0)) b = laplaceRange none b) ∧
    (∀ m, laplaceRange m (some (num 0)) = laplaceRange m none) ∧
    (∀ s, logisticRange (some (num 0)) s = logisticRange none s) ∧
    (∀ m, logisticRange m (some (num 0)) = logisticRange m none) ∧
    (∀ b, gumbelRange (some (num 0)) b = gumbelRange none b) ∧
    (∀ m, gumbelRange m (some (num 0)) = gumbelRange m none) ∧
    (∀ b, weibullRange M (some (num 0)) b = weibullRange M none b) ∧
    (∀ a, weibullRange M a (some (num 0)) = weibullRange M a none) ∧
    (∀ m, paretoRange M (some (num 0)) m = paretoRange M none m) ∧
    (∀ a, paretoRange M a (some (num 0)) = paretoRange M a none) ∧
    (halfNormalRange (some (num 0)) = halfNormalRange none) ∧
    (halfCauchyRange (some (num 0)) = halfCauchyRange none) ∧
    (∀ b, inverseGammaRange (some (num 0)) b = inverseGammaRange none b) ∧
    (∀ a, inverseGammaRange a (some (num 0)) = inverseGammaRange a none) ∧
    (∀ u, triangularRange (some (num 0)) u = triangularRange none u) ∧
    (∀ l, triangularRange l (some (num 0)) = triangularRange l none) ∧
    (∀ b k, asymmetricLaplaceRange (some (num 0)) b k
      = asymmetricLaplaceRange none b k) ∧
    (∀ m k, asymmetricLaplaceRange m (some (num 0)) k
      = asymmetricLaplaceRange m none k) ∧
    (∀ m b, asymmetricLaplaceRange m b (some (num 0))
      = asymmetricLaplaceRange m b none) ∧
    (∀ s a, skewNormalRange (some (num 0)) s a = skewNormalRange none s a) ∧
    (∀ m a, skewNormalRange m (some (num 0)) a = skewNormalRange m none a) ∧
    (∀ m s, skewNormalRange m s (some (num 0)) = skewNormalRange m s none) ∧
    (∀ s, halfStudentTRange M (some (num 0)) s = halfStudentTRange M none s) ∧
    (∀ n, halfStudentTRange M n (some (num 0)) = halfStudentTRange M n none) ∧
    (∀ l, waldRange M (some (num 0)) l = waldRange M none l) ∧
    (∀ m, waldRange M m (some (num 0)) = waldRange M m none) ∧
    (∀ s, moyalRange (some (num 0)) s = moyalRange none s) ∧
    (∀ m, moyalRange m (some (num 0)) = moyalRange m none) ∧
    (∀ s l, exGaussianRange (some (num 0)) s l = exGaussianRange none s l) ∧
    (∀ m l, exGaussianRange m (some (num 0)) l = exGaussianRange m none l) ∧
    (∀ m s, exGaussianRange m s (some (num 0)) = exGaussianRange m s none) ∧
    (∀ s, riceRange M (some (num 0)) s = riceRange M none s) ∧
    (∀ n, riceRange M n (some (num 0)) = riceRange M n none) ∧
    (∀ u, truncatedNormalRange (some (num 0)) u = truncatedNormalRange none u) ∧
    (∀ l, truncatedNormalRange l (some (num 0)) = truncatedNormalRange l none) := by
  repeat' apply And.intro
  all_goals intros
  all_goals norm_num [discreteUniformPdf, normalRange, gammaRange, exponentialRange,
    uniformRange, lognormalRange, chi2Range, studentRange, binomialRange, poissonRange,
    geometricRange, negativeBinomialRange, discreteUniformRange, hypergeometricRange,
    betaBinomialRange, discreteWeibullRange, cauchyRange, laplaceRange, logisticRange,
    gumbelRange, weibullRange, paretoRange, halfNormalRange, halfCauchyRange,
    inverseGammaRange, triangularRange, asymmetricLaplaceRange, skewNormalRange,
    halfStudentTRange, waldRange, moyalRange, exGaussianRange, riceRange,
    truncatedNormalRange, orDefault_some_zero, orDefault_none]

end Dist
